import Mathlib

/-!
Verification of the longitudinal vehicle model in
`Computational Motion/Vehicle Motion/Longitudinal_Vehicle_Model.ipynb`.

The Python floating-point numbers are modelled as elements of a linear
ordered field `α` (instantiated at `ℚ` for concrete evaluation and at `ℝ`
where the transcendental constants `np.arctan(3/60)`, `np.arctan(9/90)`
matter).  `np.sin` is modelled as an abstract function parameter `sin`,
since no claim depends on actual values of the sine function.
-/

/-- The `Vehicle` class of the notebook: the thirteen fixed parameters set
in `__init__` followed by the five mutable state variables and the
sampling time. -/
structure Vehicle (α : Type) where
  a_0 : α
  a_1 : α
  a_2 : α
  GR : α
  r_e : α
  J_e : α
  m : α
  g : α
  c_a : α
  c_r1 : α
  c : α
  F_max : α
  x : α
  v : α
  a : α
  w_e : α
  w_e_dot : α
  sample_time : α

/-- `Vehicle.__init__`: the calibrated default parameters
(a_0=400, a_1=0.1, a_2=-0.0002, GR=0.35, r_e=0.3, J_e=10, m=2000, g=9.81,
c_a=1.36, c_r1=0.01, c=10000, F_max=10000, sample_time=0.01) and the
initial state (x=0, v=5, a=0, w_e=100, w_e_dot=0).  Decimal literals are
written as exact fractions. -/
def mkVehicle {α : Type} [LinearOrderedField α] : Vehicle α :=
  { a_0 := 400
    a_1 := 1 / 10
    a_2 := -(2 / 10000)
    GR := 7 / 20
    r_e := 3 / 10
    J_e := 10
    m := 2000
    g := 981 / 100
    c_a := 136 / 100
    c_r1 := 1 / 100
    c := 10000
    F_max := 10000
    x := 0
    v := 5
    a := 0
    w_e := 100
    w_e_dot := 0
    sample_time := 1 / 100 }

/-- `Vehicle.reset`: restore the five state variables to their
construction-time values, leaving every parameter untouched. -/
def Vehicle.reset {α : Type} (veh : Vehicle α) [LinearOrderedField α] : Vehicle α :=
  { veh with x := 0, v := 5, a := 0, w_e := 100, w_e_dot := 0 }

/-- The slip-ratio computation of `Vehicle.step`:
`w_w = self.GR * self.w_e; s = ((w_w * self.r_e) - self.v) / self.v`. -/
def Vehicle.slip {α : Type} [LinearOrderedField α] (veh : Vehicle α) : α :=
  let w_w := veh.GR * veh.w_e
  (w_w * veh.r_e - veh.v) / veh.v

/-- The tire-force branch of `Vehicle.step`:
`if abs(s) < 1: F_x = self.c * s; else: F_x = self.F_max`. -/
def Vehicle.tireForce {α : Type} [LinearOrderedField α] (veh : Vehicle α) (s : α) : α :=
  if |s| < 1 then veh.c * s else veh.F_max

/-- `Vehicle.step(throttle, alpha)`, line by line from the notebook:
rolling friction, gravitational force, aerodynamic drag, total load force,
engine torque, slip ratio and tire force (see `Vehicle.slip` and
`Vehicle.tireForce`), then the sequential in-place updates
`self.a = (F_x - F_load)/self.m`, `self.v += self.a * self.sample_time`,
`self.x += self.v * self.sample_time` (the already-updated `v`),
`self.w_e_dot = (T_e - self.GR*self.r_e*F_load)/self.J_e`,
`self.w_e += self.w_e_dot * self.sample_time`. -/
def Vehicle.step {α : Type} [LinearOrderedField α] (sin : α → α) (veh : Vehicle α)
    (throttle alpha : α) : Vehicle α :=
  let R_x := veh.c_r1 * veh.v
  let F_g := veh.m * veh.g * sin alpha
  let F_aero := veh.c_a * veh.v * veh.v
  let F_load := F_aero + R_x + F_g
  let T_e := throttle * (veh.a_0 + veh.a_1 * veh.w_e + veh.a_2 * veh.w_e * veh.w_e)
  let s := veh.slip
  let F_x := veh.tireForce s
  let a' := (F_x - F_load) / veh.m
  let v' := veh.v + a' * veh.sample_time
  let x' := veh.x + v' * veh.sample_time
  let w_e_dot' := (T_e - veh.GR * veh.r_e * F_load) / veh.J_e
  let w_e' := veh.w_e + w_e_dot' * veh.sample_time
  { veh with a := a', v := v', x := x', w_e_dot := w_e_dot', w_e := w_e' }

/-- The step algorithm exactly as the specification words it: every
intermediate quantity computed from the pre-update `v` and `w_e`, then
`a' = (F_x - F_load)/m`, `v' = v + a'*dt`, `x' = x + v'*dt`,
`w_e_dot' = (T_e - GR*r_e*F_load)/J_e`, `w_e' = w_e + w_e_dot'*dt`. -/
def stepSpec {α : Type} [LinearOrderedField α] (sin : α → α) (veh : Vehicle α)
    (throttle alpha : α) : Vehicle α :=
  let R_x := veh.c_r1 * veh.v
  let F_g := veh.m * veh.g * sin alpha
  let F_aero := veh.c_a * veh.v ^ 2
  let F_load := F_aero + R_x + F_g
  let T_e := throttle * (veh.a_0 + veh.a_1 * veh.w_e + veh.a_2 * veh.w_e ^ 2)
  let w_w := veh.GR * veh.w_e
  let s := (w_w * veh.r_e - veh.v) / veh.v
  let F_x := if |s| < 1 then veh.c * s else veh.F_max
  let a' := (F_x - F_load) / veh.m
  let v' := veh.v + a' * veh.sample_time
  let x' := veh.x + v' * veh.sample_time
  let w_e_dot' := (T_e - veh.GR * veh.r_e * F_load) / veh.J_e
  let w_e' := veh.w_e + w_e_dot' * veh.sample_time
  { veh with x := x', v := v', a := a', w_e := w_e', w_e_dot := w_e_dot' }

/-- The five mutable state variables of a vehicle, as one tuple. -/
def stateOf {α : Type} (veh : Vehicle α) : α × α × α × α × α :=
  (veh.x, veh.v, veh.a, veh.w_e, veh.w_e_dot)

/-- C1: for every state with `v ≠ 0` and all inputs, `step` realises
exactly the algorithm of the specification, with every intermediate
quantity computed from the pre-update `v` and `w_e`. -/
theorem step_matches_specified_algorithm {α : Type} [LinearOrderedField α]
    (sin : α → α) (veh : Vehicle α) (throttle alpha : α) (_hv : veh.v ≠ 0) :
    veh.step sin throttle alpha = stepSpec sin veh throttle alpha := by
  simp only [Vehicle.step, stepSpec, Vehicle.slip, Vehicle.tireForce]
  congr 1 <;> ring

/-- Witness for C1 at the constructed vehicle over `ℚ`. -/
theorem step_matches_specified_algorithm_witness :
    (mkVehicle : Vehicle ℚ).v ≠ 0 ∧
      (mkVehicle : Vehicle ℚ).step (fun _ => 0) (1 / 5) 0 =
        stepSpec (fun _ => 0) (mkVehicle : Vehicle ℚ) (1 / 5) 0 :=
  ⟨by decide,
    step_matches_specified_algorithm (fun _ => 0) mkVehicle (1 / 5) 0 (by decide)⟩

/-- C2: the position written by `step` uses the already-updated velocity
of the same call (semi-implicit Euler): the new position is
`x + (v + a'*dt)*dt` with `a'` the acceleration computed and stored by
that call. -/
theorem position_update_uses_new_velocity {α : Type} [LinearOrderedField α]
    (sin : α → α) (veh : Vehicle α) (throttle alpha : α) :
    (veh.step sin throttle alpha).x =
        veh.x + (veh.v + (veh.step sin throttle alpha).a * veh.sample_time) *
          veh.sample_time ∧
      (veh.step sin throttle alpha).v =
        veh.v + (veh.step sin throttle alpha).a * veh.sample_time := by
  simp [Vehicle.step]

/-- C3: the tire-force rule of `step`: linear law `c * s` while `|s| < 1`,
and exactly `F_max` (10000 with the constructed parameters) once
`|s| ≥ 1`. -/
theorem tire_force_saturation {α : Type} [LinearOrderedField α]
    (veh : Vehicle α) (s : α) :
    (|s| < 1 → veh.tireForce s = veh.c * s) ∧
      (1 ≤ |s| → veh.tireForce s = veh.F_max) ∧
      (1 ≤ |s| → (mkVehicle : Vehicle α).tireForce s = 10000) := by
  refine ⟨fun h => ?_, fun h => ?_, fun h => ?_⟩
  · simp [Vehicle.tireForce, h]
  · simp [Vehicle.tireForce, not_lt.mpr h]
  · simp [Vehicle.tireForce, mkVehicle, not_lt.mpr h]

/-- Witness for C3 at `s = 3` over `ℚ`. -/
theorem tire_force_saturation_witness :
    (1 : ℚ) ≤ |(3 : ℚ)| ∧ (mkVehicle : Vehicle ℚ).tireForce 3 = 10000 :=
  ⟨by decide, (tire_force_saturation (mkVehicle : Vehicle ℚ) 3).2.2 (by decide)⟩

/-- C10: the saturated tire force is `+F_max` in both directions: for
`s ≤ -1` it is the same positive `F_max` (10000 by default) as for
`s ≥ 1`, while just inside the linear regime (`-1 < s < 1`) the default
force is `10000 * s`, so the map jumps from values near `-10000` to
`+10000` at `s = -1`. -/
theorem tire_force_negative_saturation_positive {α : Type}
    [LinearOrderedField α] (veh : Vehicle α) (s : α) :
    (s ≤ -1 → veh.tireForce s = veh.F_max) ∧
      (1 ≤ s → veh.tireForce s = veh.F_max) ∧
      (s ≤ -1 → (mkVehicle : Vehicle α).tireForce s = 10000) ∧
      (-1 < s → s < 1 → (mkVehicle : Vehicle α).tireForce s = 10000 * s) := by
  have hneg : s ≤ -1 → ¬|s| < 1 := fun h => by
    rw [abs_lt]; push_neg; intro h'; linarith
  have hpos : 1 ≤ s → ¬|s| < 1 := fun h => by
    rw [abs_lt]; push_neg; intro h'; linarith
  refine ⟨fun h => ?_, fun h => ?_, fun h => ?_, fun h h' => ?_⟩
  · simp [Vehicle.tireForce, hneg h]
  · simp [Vehicle.tireForce, hpos h]
  · simp [Vehicle.tireForce, hneg h, mkVehicle]
  · simp [Vehicle.tireForce, abs_lt.mpr ⟨h, h'⟩, mkVehicle]

/-- Witness for C10 at `s = -2` over `ℚ`: the force saturates to the
positive value 10000. -/
theorem tire_force_negative_saturation_positive_witness :
    (-2 : ℚ) ≤ -1 ∧ (mkVehicle : Vehicle ℚ).tireForce (-2) = 10000 :=
  ⟨by decide,
    (tire_force_negative_saturation_positive (mkVehicle : Vehicle ℚ) (-2)).2.2.1
      (by decide)⟩

/-- C4: `reset` puts the mutable state at exactly `(0, 5, 0, 100, 0)`,
which is the state immediately after construction, and `reset` is
idempotent. -/
theorem reset_restores_initial_state {α : Type} [LinearOrderedField α]
    (veh : Vehicle α) :
    stateOf veh.reset = ((0 : α), 5, 0, 100, 0) ∧
      stateOf veh.reset = stateOf (mkVehicle : Vehicle α) ∧
      veh.reset.reset = veh.reset := by
  refine ⟨rfl, ?_, rfl⟩
  simp [stateOf, Vehicle.reset, mkVehicle]

/-- C8: neither `step` nor `reset` modifies any fixed parameter. -/
theorem parameters_unchanged {α : Type} [LinearOrderedField α]
    (sin : α → α) (veh : Vehicle α) (throttle alpha : α) :
    (veh.step sin throttle alpha).a_0 = veh.a_0 ∧
      (veh.step sin throttle alpha).a_1 = veh.a_1 ∧
      (veh.step sin throttle alpha).a_2 = veh.a_2 ∧
      (veh.step sin throttle alpha).GR = veh.GR ∧
      (veh.step sin throttle alpha).r_e = veh.r_e ∧
      (veh.step sin throttle alpha).J_e = veh.J_e ∧
      (veh.step sin throttle alpha).m = veh.m ∧
      (veh.step sin throttle alpha).g = veh.g ∧
      (veh.step sin throttle alpha).c_a = veh.c_a ∧
      (veh.step sin throttle alpha).c_r1 = veh.c_r1 ∧
      (veh.step sin throttle alpha).c = veh.c ∧
      (veh.step sin throttle alpha).F_max = veh.F_max ∧
      (veh.step sin throttle alpha).sample_time = veh.sample_time ∧
      veh.reset.a_0 = veh.a_0 ∧ veh.reset.a_1 = veh.a_1 ∧
      veh.reset.a_2 = veh.a_2 ∧ veh.reset.GR = veh.GR ∧
      veh.reset.r_e = veh.r_e ∧ veh.reset.J_e = veh.J_e ∧
      veh.reset.m = veh.m ∧ veh.reset.g = veh.g ∧
      veh.reset.c_a = veh.c_a ∧ veh.reset.c_r1 = veh.c_r1 ∧
      veh.reset.c = veh.c ∧ veh.reset.F_max = veh.F_max ∧
      veh.reset.sample_time = veh.sample_time := by
  simp [Vehicle.step, Vehicle.reset]

/-- Checked division: `none` exactly on a zero divisor, marking the
operations of the Python code that are not total. -/
def divExact {α : Type} [LinearOrderedField α] (num den : α) : Option α :=
  if den = 0 then none else some (num / den)

/-- `Vehicle.step` with every division routed through `divExact`, so that
each fallible operation of the Python code is explicit. -/
def Vehicle.stepChecked {α : Type} [LinearOrderedField α] (sin : α → α)
    (veh : Vehicle α) (throttle alpha : α) : Option (Vehicle α) := do
  let R_x := veh.c_r1 * veh.v
  let F_g := veh.m * veh.g * sin alpha
  let F_aero := veh.c_a * veh.v * veh.v
  let F_load := F_aero + R_x + F_g
  let T_e := throttle * (veh.a_0 + veh.a_1 * veh.w_e + veh.a_2 * veh.w_e * veh.w_e)
  let w_w := veh.GR * veh.w_e
  let s ← divExact (w_w * veh.r_e - veh.v) veh.v
  let F_x := if |s| < 1 then veh.c * s else veh.F_max
  let a' ← divExact (F_x - F_load) veh.m
  let v' := veh.v + a' * veh.sample_time
  let x' := veh.x + v' * veh.sample_time
  let w_e_dot' ← divExact (T_e - veh.GR * veh.r_e * F_load) veh.J_e
  let w_e' := veh.w_e + w_e_dot' * veh.sample_time
  return { veh with a := a', v := v', x := x', w_e_dot := w_e_dot', w_e := w_e' }

/-- C6: with the (immutable) parameters `m` and `J_e` nonzero as
constructed, the division by `v` in the slip-ratio computation is the only
operation of `step` that can fail: the checked step fails exactly when
`v = 0`, and under the precondition `v ≠ 0` it agrees with `step` on every
input, so the division-by-zero branch is unreachable. -/
theorem step_only_division_hazard {α : Type} [LinearOrderedField α]
    (sin : α → α) (veh : Vehicle α) (throttle alpha : α)
    (hm : veh.m ≠ 0) (hJ : veh.J_e ≠ 0) :
    (veh.stepChecked sin throttle alpha = none ↔ veh.v = 0) ∧
      (veh.v ≠ 0 →
        veh.stepChecked sin throttle alpha = some (veh.step sin throttle alpha)) := by
  constructor
  · constructor
    · intro h
      by_contra hv
      simp [Vehicle.stepChecked, divExact, hv, hm, hJ] at h
    · intro hv
      simp [Vehicle.stepChecked, divExact, hv]
  · intro hv
    simp [Vehicle.stepChecked, Vehicle.step, Vehicle.slip, Vehicle.tireForce,
      divExact, hv, hm, hJ]

/-- Witness for C6 at the constructed vehicle over `ℚ`. -/
theorem step_only_division_hazard_witness :
    (mkVehicle : Vehicle ℚ).m ≠ 0 ∧ (mkVehicle : Vehicle ℚ).J_e ≠ 0 ∧
      (((mkVehicle : Vehicle ℚ).stepChecked (fun _ => 0) (1 / 5) 0 = none ↔
          (mkVehicle : Vehicle ℚ).v = 0) ∧
        ((mkVehicle : Vehicle ℚ).v ≠ 0 →
          (mkVehicle : Vehicle ℚ).stepChecked (fun _ => 0) (1 / 5) 0 =
            some ((mkVehicle : Vehicle ℚ).step (fun _ => 0) (1 / 5) 0))) :=
  ⟨by decide, by decide,
    step_only_division_hazard (fun _ => 0) mkVehicle (1 / 5) 0 (by decide) (by decide)⟩

/-- A simulation run: fold `step` over a finite list of
(throttle, grade angle) inputs, as the notebook's loops do. -/
def runSteps {α : Type} [LinearOrderedField α] (sin : α → α)
    (ins : List (α × α)) (veh : Vehicle α) : Vehicle α :=
  ins.foldl (fun st p => st.step sin p.1 p.2) veh

/-- C5: `step` is deterministic: two runs from equal initial states over
equal input sequences agree after the first `N` steps, for every `N`. -/
theorem step_deterministic {α : Type} [LinearOrderedField α] (sin : α → α)
    (ins₁ ins₂ : List (α × α)) (veh₁ veh₂ : Vehicle α) (N : ℕ)
    (hveh : veh₁ = veh₂) (hins : ins₁ = ins₂) :
    runSteps sin (ins₁.take N) veh₁ = runSteps sin (ins₂.take N) veh₂ := by
  subst hveh
  subst hins
  rfl

/-- Witness for C5 on a one-element input list over `ℚ`. -/
theorem step_deterministic_witness :
    (mkVehicle : Vehicle ℚ) = mkVehicle ∧
      ([((1 : ℚ), (0 : ℚ))] : List (ℚ × ℚ)) = [(1, 0)] ∧
      runSteps (fun _ => 0) (([((1 : ℚ), (0 : ℚ))] : List (ℚ × ℚ)).take 1) mkVehicle =
        runSteps (fun _ => 0) (([((1 : ℚ), (0 : ℚ))] : List (ℚ × ℚ)).take 1) mkVehicle :=
  ⟨rfl, rfl,
    step_deterministic (fun _ => 0) [(1, 0)] [(1, 0)] mkVehicle mkVehicle 1 rfl rfl⟩

/-- The ramp grade-angle rule of cell 7, as a function of the model's
current position `x`, with the two angle constants abstracted
(in the notebook `aLow = np.arctan(3/60)` and `aHigh = np.arctan(9/90)`):
`if model.x < 60: aLow; elif model.x <= 60 or model.x < 150: aHigh;
else: 0`. -/
def alphaProfile {α : Type} [LinearOrderedField α] (aLow aHigh : α) (x : α) : α :=
  if x < 60 then aLow
  else if x ≤ 60 ∨ x < 150 then aHigh
  else 0

/-- C7 counterexample: at position `x = 150` the ramp rule of cell 7
yields grade angle `0`, not `arctan(9/90)` as the claim asserts for every
`x ≥ 60`. -/
theorem ramp_angle_not_high_at_150 :
    alphaProfile (Real.arctan (3 / 60)) (Real.arctan (9 / 90)) (150 : ℝ) = 0 ∧
      alphaProfile (Real.arctan (3 / 60)) (Real.arctan (9 / 90)) (150 : ℝ) ≠
        Real.arctan (9 / 90) := by
  have h : alphaProfile (Real.arctan (3 / 60)) (Real.arctan (9 / 90)) (150 : ℝ) = 0 := by
    norm_num [alphaProfile]
  refine ⟨h, ?_⟩
  rw [h]
  intro h'
  have h9 : (9 : ℝ) / 90 = 0 := Real.arctan_eq_zero_iff.mp h'.symm
  norm_num at h9

/-- C7 amended: in the ramp scenario the grade angle fed to `step` is
`arctan(3/60)` while `x < 60`, `arctan(9/90)` for `60 ≤ x < 150`, and `0`
for `x ≥ 150`. -/
theorem ramp_angle_three_segments (x : ℝ) :
    (x < 60 → alphaProfile (Real.arctan (3 / 60)) (Real.arctan (9 / 90)) x =
      Real.arctan (3 / 60)) ∧
      (60 ≤ x → x < 150 →
        alphaProfile (Real.arctan (3 / 60)) (Real.arctan (9 / 90)) x =
          Real.arctan (9 / 90)) ∧
      (150 ≤ x → alphaProfile (Real.arctan (3 / 60)) (Real.arctan (9 / 90)) x = 0) := by
  unfold alphaProfile
  refine ⟨fun h => ?_, fun h h' => ?_, fun h => ?_⟩
  · rw [if_pos h]
  · rw [if_neg (not_lt.mpr h), if_pos (Or.inr h')]
  · have h1 : ¬x < 60 := not_lt.mpr (by linarith)
    have h2 : ¬(x ≤ 60 ∨ x < 150) := by
      rintro (h' | h') <;> linarith
    rw [if_neg h1, if_neg h2]

/-- Witness for the amended C7 at `x = 200`. -/
theorem ramp_angle_three_segments_witness :
    (150 : ℝ) ≤ 200 ∧
      alphaProfile (Real.arctan (3 / 60)) (Real.arctan (9 / 90)) (200 : ℝ) = 0 :=
  ⟨by norm_num, (ramp_angle_three_segments 200).2.2 (by norm_num)⟩

/-- The trapezoidal throttle rule of cell 7 as a function of time `t`:
`if t < 5: (0.3/5)*t + 0.2; elif 5 <= t <= 15: 0.5;
else: 0.5 - 0.5/5*(t-15)`. -/
def rampThrottle {α : Type} [LinearOrderedField α] (t : α) : α :=
  if t < 5 then 3 / 10 / 5 * t + 2 / 10
  else if 5 ≤ t ∧ t ≤ 15 then 5 / 10
  else 5 / 10 - 5 / 10 / 5 * (t - 15)

/-- The constant-throttle recording loop of cell 5: at each iteration the
current velocity is stored (`v_data[i] = model.v`) and only then is
`model.step(0.2, 0)` called. -/
def constLoop {α : Type} [LinearOrderedField α] (sin : α → α) :
    ℕ → Vehicle α → List α
  | 0, _ => []
  | n + 1, veh => veh.v :: constLoop sin n (veh.step sin (2 / 10) 0)

/-- The state reached after `i` iterations of the cell-5 loop. -/
def constIter {α : Type} [LinearOrderedField α] (sin : α → α) :
    ℕ → Vehicle α → Vehicle α
  | 0, veh => veh
  | n + 1, veh => constIter sin n (veh.step sin (2 / 10) 0)

/-- The ramp-scenario recording loop of cell 7: at iteration of time
index `i` the current position is stored (`x_data[i] = model.x`) and only
then is `model.step(throttle_a[i], alpha_a[i])` called, with
`throttle_a[i] = rampThrottle (i*0.01)` and
`alpha_a[i] = alphaProfile aLow aHigh model.x`. -/
def rampLoop {α : Type} [LinearOrderedField α] (sin : α → α) (aLow aHigh : α) :
    ℕ → ℕ → Vehicle α → List α
  | 0, _, _ => []
  | n + 1, i, veh =>
      veh.x :: rampLoop sin aLow aHigh n (i + 1)
        (veh.step sin (rampThrottle ((i : α) * (1 / 100)))
          (alphaProfile aLow aHigh veh.x))

/-- The state reached after running the cell-7 loop body `k` times
starting from time index `i`. -/
def rampIter {α : Type} [LinearOrderedField α] (sin : α → α) (aLow aHigh : α) :
    ℕ → ℕ → Vehicle α → Vehicle α
  | 0, _, veh => veh
  | k + 1, i, veh =>
      rampIter sin aLow aHigh k (i + 1)
        (veh.step sin (rampThrottle ((i : α) * (1 / 100)))
          (alphaProfile aLow aHigh veh.x))

/-- Sample `i` of the cell-5 loop is the state before step `i`. -/
theorem constLoop_sample {α : Type} [LinearOrderedField α] (sin : α → α) :
    ∀ (n i : ℕ) (veh : Vehicle α), i < n →
      (constLoop sin n veh)[i]? = some ((constIter sin i veh).v) := by
  intro n
  induction n with
  | zero => intro i veh h; exact absurd h (Nat.not_lt_zero i)
  | succ n ih =>
    intro i veh h
    cases i with
    | zero => simp [constLoop, constIter]
    | succ i =>
      simpa [constLoop, constIter] using
        ih i (veh.step sin (2 / 10) 0) (Nat.lt_of_succ_lt_succ h)

/-- Sample `i` of the cell-7 loop is the state before step `i`. -/
theorem rampLoop_sample {α : Type} [LinearOrderedField α] (sin : α → α)
    (aLow aHigh : α) :
    ∀ (n i j : ℕ) (veh : Vehicle α), i < n →
      (rampLoop sin aLow aHigh n j veh)[i]? =
        some ((rampIter sin aLow aHigh i j veh).x) := by
  intro n
  induction n with
  | zero => intro i j veh h; exact absurd h (Nat.not_lt_zero i)
  | succ n ih =>
    intro i j veh h
    cases i with
    | zero => simp [rampLoop, rampIter]
    | succ i =>
      simpa [rampLoop, rampIter] using
        ih i (j + 1)
          (veh.step sin (rampThrottle ((j : α) * (1 / 100)))
            (alphaProfile aLow aHigh veh.x))
          (Nat.lt_of_succ_lt_succ h)

/-- C9: both recording loops sample the model state before calling `step`
for index `i`: the value stored at output index `i` is the state prior to
the `i`-th step, so sample `i` is paired with time `i*dt`. -/
theorem recorder_samples_pre_step_state {α : Type} [LinearOrderedField α]
    (sin : α → α) (aLow aHigh : α) (n i j : ℕ) (veh : Vehicle α) (h : i < n) :
    (constLoop sin n veh)[i]? = some ((constIter sin i veh).v) ∧
      (rampLoop sin aLow aHigh n j veh)[i]? =
        some ((rampIter sin aLow aHigh i j veh).x) :=
  ⟨constLoop_sample sin n i veh h, rampLoop_sample sin aLow aHigh n i j veh h⟩

/-- Witness for C9 at `n = 1`, `i = 0` over `ℚ`. -/
theorem recorder_samples_pre_step_state_witness :
    (0 : ℕ) < 1 ∧
      ((constLoop (fun _ => (0 : ℚ)) 1 mkVehicle)[0]? =
          some ((constIter (fun _ => (0 : ℚ)) 0 mkVehicle).v) ∧
        (rampLoop (fun _ => (0 : ℚ)) 0 0 1 0 mkVehicle)[0]? =
          some ((rampIter (fun _ => (0 : ℚ)) 0 0 0 0 mkVehicle).x)) :=
  ⟨by decide,
    recorder_samples_pre_step_state (fun _ => 0) 0 0 1 0 0 mkVehicle (by decide)⟩
